import Mathlib

/-
Verification of the NEXUS-API relay (src/index.py): a FastAPI wrapper that
validates two kinds of image-generation requests (text-to-image,
image-to-image), builds a form payload, forwards it to the Creart AI
upstream endpoint, and maps the upstream response or error back to the
caller.

Modelling choices:
* Inbound bodies are JSON objects, embedded as association lists of
  field name / `JValue` pairs (keys assumed distinct, as produced by a
  JSON parser).
* Pydantic validation (v2 lax-mode semantics for the JSON value kinds
  distinguished here) is embedded per field; all field issues are
  collected, mirroring the pydantic error aggregation.  A `str` field
  accepts exactly JSON strings; a `float` field accepts JSON numbers;
  `Optional[int]` accepts JSON integers and null.  Python floats are
  embedded as rationals (the only float operations in the source are
  defaulting and pass-through, both exact).
* The outbound HTTP call is embedded as an oracle
  `Upstream : String -> Payload -> UpstreamOutcome` supplied by the
  environment; `UpstreamResponse.json` models the outcome of the httpx
  `response.json()` call (`.ok v` when the body parses, `.error msg` when it
  raises with message `msg`).  Handlers return their result together with
  the list of outbound calls issued, so that "no call was made" is a
  provable statement.
* FastAPI surfaces pydantic validation failures as HTTP 422; `HTTPException`
  carries its status; a returned JSON value gets status 200
  (`resultStatus`).  The httpx `raise_for_status` method raises for every non-2xx
  status, which the handlers translate into an `HTTPException` preserving
  the upstream status and body text; any other exception inside the
  `try` block (including a `response.json()` failure) becomes a 500.
-/

namespace NexusAPI

/-- JSON-like values appearing in inbound request bodies and upstream
response bodies. -/
inductive JValue where
  | str (s : String)
  | int (n : Int)
  | num (q : Rat)
  | bool (b : Bool)
  | null
  | arr (elems : List JValue)
  | obj (fields : List (String × JValue))

/-- A raw inbound JSON object body: field name / value pairs. -/
abbrev RawBody := List (String × JValue)

/-- One pydantic validation failure for one field. -/
inductive ValidationIssue where
  | missing (field : String)
  | wrongType (field : String)
  deriving DecidableEq

/-- Embeds the pydantic model `Text2ImageRequest` of src/index.py. -/
structure Text2ImageRequest where
  prompt : String
  negative_prompt : String
  aspect_ratio : String
  guidance_scale : Rat
  seed : Option Int

/-- Embeds the pydantic model `Image2ImageRequest` of src/index.py: all
fields of `Text2ImageRequest` plus the required `input_image_base64`. -/
structure Image2ImageRequest extends Text2ImageRequest where
  input_image_base64 : String

/-- Default of the `guidance_scale` field (src/index.py line 29). -/
def defaultGuidanceScale : Rat := 9.5

/-- Required `str` field: absent is an error, a JSON string is accepted
verbatim (pydantic v2 performs no number-to-string coercion and imposes
no non-emptiness constraint), any other JSON value is a type error. -/
def reqStr (raw : RawBody) (name : String) : Except ValidationIssue String :=
  match raw.lookup name with
  | none => .error (.missing name)
  | some (.str s) => .ok s
  | some _ => .error (.wrongType name)

/-- Optional `str` field with a default. -/
def optStr (raw : RawBody) (name : String) (dflt : String) :
    Except ValidationIssue String :=
  match raw.lookup name with
  | none => .ok dflt
  | some (.str s) => .ok s
  | some _ => .error (.wrongType name)

/-- Optional `float` field with a default; accepts JSON numbers and
integers. -/
def optFloat (raw : RawBody) (name : String) (dflt : Rat) :
    Except ValidationIssue Rat :=
  match raw.lookup name with
  | none => .ok dflt
  | some (.num q) => .ok q
  | some (.int n) => .ok (n : Rat)
  | some _ => .error (.wrongType name)

/-- The `Optional[int]` field `seed`, default `None`; accepts JSON
integers and null. -/
def optSeed (raw : RawBody) (name : String) : Except ValidationIssue (Option Int) :=
  match raw.lookup name with
  | none => .ok none
  | some .null => .ok none
  | some (.int n) => .ok (some n)
  | some _ => .error (.wrongType name)

/-- Issues contributed by one field validator. -/
def errList {α : Type} : Except ValidationIssue α → List ValidationIssue
  | .error e => [e]
  | .ok _ => []

/-- Issues of a whole-model validation outcome. -/
def issuesOf {α : Type} : Except (List ValidationIssue) α → List ValidationIssue
  | .error es => es
  | .ok _ => []

/-- True exactly when a whole-model validation failed. -/
def isErr {α : Type} : Except (List ValidationIssue) α → Bool
  | .error _ => true
  | .ok _ => false

/-- All field issues of a raw body checked against `Text2ImageRequest`,
in the pydantic field-declaration order. -/
def text2ImageIssues (raw : RawBody) : List ValidationIssue :=
  errList (reqStr raw "prompt") ++ errList (optStr raw "negative_prompt" "") ++
  errList (optStr raw "aspect_ratio" "1x1") ++
  errList (optFloat raw "guidance_scale" defaultGuidanceScale) ++
  errList (optSeed raw "seed")

/-- Pydantic validation of a raw body against `Text2ImageRequest`:
succeeds with the populated model exactly when every field validates,
and otherwise fails with the collected field issues (surfaced by FastAPI
as a 422 client error). -/
def validateText2Image (raw : RawBody) :
    Except (List ValidationIssue) Text2ImageRequest :=
  match reqStr raw "prompt", optStr raw "negative_prompt" "",
      optStr raw "aspect_ratio" "1x1",
      optFloat raw "guidance_scale" defaultGuidanceScale, optSeed raw "seed" with
  | .ok p, .ok np, .ok ar, .ok gs, .ok sd => .ok ⟨p, np, ar, gs, sd⟩
  | _, _, _, _, _ => .error (text2ImageIssues raw)

/-- All field issues of a raw body checked against `Image2ImageRequest`:
the inherited `Text2ImageRequest` issues followed by those of the extra
required field `input_image_base64`. -/
def image2ImageIssues (raw : RawBody) : List ValidationIssue :=
  issuesOf (validateText2Image raw) ++ errList (reqStr raw "input_image_base64")

/-- Pydantic validation of a raw body against `Image2ImageRequest`. -/
def validateImage2Image (raw : RawBody) :
    Except (List ValidationIssue) Image2ImageRequest :=
  match validateText2Image raw, reqStr raw "input_image_base64" with
  | .ok base, .ok img => .ok ⟨base, img⟩
  | _, _ => .error (image2ImageIssues raw)

/-- The fixed upstream base URL (src/index.py line 10). -/
def CREART_AI_BASE_URL : String := "https://api.creartai.com/api/v1"

/-- The outbound form payload dict built by the handlers, with the
fields in source order. -/
structure Payload where
  prompt : String
  input_image_type : String
  input_image_base64 : String
  negative_prompt : String
  aspect_ratio : String
  guidance_scale : Rat
  seed : Option Int

/-- The payload of `generate_text_to_image` (src/index.py lines 75-83):
`input_image_type` is the literal "text2image" and `input_image_base64`
is the literal empty string. -/
def text2imagePayload : Text2ImageRequest → Payload
  | ⟨p, np, ar, gs, sd⟩ => ⟨p, "text2image", "", np, ar, gs, sd⟩

/-- The payload of `generate_image_to_image` (src/index.py lines 117-125):
`input_image_type` is the literal "image2image" and `input_image_base64`
is copied from the request. -/
def image2imagePayload : Image2ImageRequest → Payload
  | ⟨⟨p, np, ar, gs, sd⟩, img⟩ => ⟨p, "image2image", img, np, ar, gs, sd⟩

/-- An upstream HTTP response as observed by the handlers.  `json`
models the outcome of `response.json()`: `.ok v` when the body text
parses as JSON value `v`, `.error msg` when parsing raises with message
`msg`. -/
structure UpstreamResponse where
  status : Nat
  text : String
  json : Except String JValue

/-- Outcome of one outbound `client.post`: either an HTTP response or a
transport-level exception (timeout, connection failure, ...) carrying
its message. -/
inductive UpstreamOutcome where
  | response (resp : UpstreamResponse)
  | transportError (msg : String)

/-- The upstream as seen from the handlers: a function from request URL and form
payload to the outcome of the outbound call. -/
abbrev Upstream := String → Payload → UpstreamOutcome

/-- What a handler returns to the caller: a FastAPI 422 validation
rejection, a JSON body (status 200), or an `HTTPException` with an
explicit status and detail. -/
inductive HandlerResult where
  | validationError (issues : List ValidationIssue)
  | ok (body : JValue)
  | httpError (status : Nat) (detail : String)

/-- The HTTP status code FastAPI attaches to each handler result. -/
def resultStatus : HandlerResult → Nat
  | .validationError _ => 422
  | .ok _ => 200
  | .httpError s _ => s

/-- Embeds the try-block logic after a response arrived
(src/index.py lines 92-105 and 132-141): `raise_for_status` raises for
every non-2xx status, which becomes an `HTTPException` preserving the
upstream status code and body text; on a 2xx status, `response.json()`
either yields the body verbatim or raises, and the raise is caught by
the generic `except Exception` handler as a 500. -/
def processResponse (resp : UpstreamResponse) : HandlerResult :=
  if 200 ≤ resp.status ∧ resp.status < 300 then
    match resp.json with
    | .ok v => .ok v
    | .error msg => .httpError 500 ("An internal error occurred: " ++ msg)
  else
    .httpError resp.status ("Error from external API: " ++ resp.text)

/-- Issues one outbound call and maps its outcome: a transport-level
exception is caught by the generic `except Exception` handler as a
500. -/
def callUpstream (upstream : Upstream) (url : String) (payload : Payload) :
    HandlerResult :=
  match upstream url payload with
  | .response resp => processResponse resp
  | .transportError msg => .httpError 500 ("An internal error occurred: " ++ msg)

/-- Embeds the endpoint `generate_text_to_image` (src/index.py lines
65-105), returning the handler result together with the list of
outbound calls (URL and payload) issued.  FastAPI validates the body
before the handler body runs; a validation failure is returned as a 422
with no outbound call. -/
def generate_text_to_image (upstream : Upstream) (raw : RawBody) :
    HandlerResult × List (String × Payload) :=
  match validateText2Image raw with
  | .error issues => (.validationError issues, [])
  | .ok req =>
      (callUpstream upstream (CREART_AI_BASE_URL ++ "/text2image")
        (text2imagePayload req),
       [(CREART_AI_BASE_URL ++ "/text2image", text2imagePayload req)])

/-- Embeds the endpoint `generate_image_to_image` (src/index.py lines
108-141). -/
def generate_image_to_image (upstream : Upstream) (raw : RawBody) :
    HandlerResult × List (String × Payload) :=
  match validateImage2Image raw with
  | .error issues => (.validationError issues, [])
  | .ok req =>
      (callUpstream upstream (CREART_AI_BASE_URL ++ "/image2image")
        (image2imagePayload req),
       [(CREART_AI_BASE_URL ++ "/image2image", image2imagePayload req)])

/-- String containment: `sub` occurs contiguously inside `s`. -/
def strContains (s sub : String) : Prop := ∃ a b, s = a ++ sub ++ b

/-! Helper lemmas about the field validators and the validators as a
whole, shared by the claim theorems below. -/

theorem reqStr_none (raw : RawBody) (name : String)
    (h : raw.lookup name = none) :
    reqStr raw name = .error (.missing name) := by
  unfold reqStr; rw [h]

theorem reqStr_wrongType (raw : RawBody) (name : String) (v : JValue)
    (h : raw.lookup name = some v) (hv : ∀ s, v ≠ JValue.str s) :
    reqStr raw name = .error (.wrongType name) := by
  unfold reqStr; rw [h]
  cases v with
  | str s => exact absurd rfl (hv s)
  | int n => rfl
  | num q => rfl
  | bool b => rfl
  | null => rfl
  | arr elems => rfl
  | obj fields => rfl

theorem optStr_none (raw : RawBody) (name dflt : String)
    (h : raw.lookup name = none) : optStr raw name dflt = .ok dflt := by
  unfold optStr; rw [h]

theorem optFloat_none (raw : RawBody) (name : String) (dflt : Rat)
    (h : raw.lookup name = none) : optFloat raw name dflt = .ok dflt := by
  unfold optFloat; rw [h]

theorem optSeed_none (raw : RawBody) (name : String)
    (h : raw.lookup name = none) : optSeed raw name = .ok none := by
  unfold optSeed; rw [h]

theorem validateText2Image_ok_inv (raw : RawBody) (req : Text2ImageRequest)
    (h : validateText2Image raw = .ok req) :
    reqStr raw "prompt" = .ok req.prompt ∧
    optStr raw "negative_prompt" "" = .ok req.negative_prompt ∧
    optStr raw "aspect_ratio" "1x1" = .ok ( Text2ImageRequest.aspect_ratio req) ∧
    optFloat raw "guidance_scale" defaultGuidanceScale = .ok req.guidance_scale ∧
    optSeed raw "seed" = .ok req.seed := by
  unfold validateText2Image at h
  split at h
  case _ p np ar gs sd hp hnp har hgs hsd =>
    cases h
    exact ⟨hp, hnp, har, hgs, hsd⟩
  case _ => cases h

theorem validateText2Image_err_of_prompt (raw : RawBody) (e : ValidationIssue)
    (h : reqStr raw "prompt" = .error e) :
    validateText2Image raw = .error (text2ImageIssues raw) := by
  unfold validateText2Image
  split
  case _ p np ar gs sd hp hnp har hgs hsd =>
    rw [h] at hp; cases hp
  case _ => rfl

theorem validateImage2Image_err_of_text (raw : RawBody)
    (es : List ValidationIssue) (h : validateText2Image raw = .error es) :
    validateImage2Image raw = .error (image2ImageIssues raw) := by
  unfold validateImage2Image
  split
  case _ base img h1 h2 => rw [h] at h1; cases h1
  case _ => rfl

theorem validateImage2Image_err_of_base64 (raw : RawBody) (e : ValidationIssue)
    (h : reqStr raw "input_image_base64" = .error e) :
    validateImage2Image raw = .error (image2ImageIssues raw) := by
  unfold validateImage2Image
  split
  case _ base img h1 h2 => rw [h] at h2; cases h2
  case _ => rfl

theorem generate_text_to_image_of_ok (upstream : Upstream) (raw : RawBody)
    (req : Text2ImageRequest) (h : validateText2Image raw = .ok req) :
    generate_text_to_image upstream raw =
      (callUpstream upstream (CREART_AI_BASE_URL ++ "/text2image")
        (text2imagePayload req),
       [(CREART_AI_BASE_URL ++ "/text2image", text2imagePayload req)]) := by
  unfold generate_text_to_image; rw [h]

theorem generate_text_to_image_of_err (upstream : Upstream) (raw : RawBody)
    (issues : List ValidationIssue) (h : validateText2Image raw = .error issues) :
    generate_text_to_image upstream raw = (.validationError issues, []) := by
  unfold generate_text_to_image; rw [h]

theorem generate_image_to_image_of_ok (upstream : Upstream) (raw : RawBody)
    (req : Image2ImageRequest) (h : validateImage2Image raw = .ok req) :
    generate_image_to_image upstream raw =
      (callUpstream upstream (CREART_AI_BASE_URL ++ "/image2image")
        (image2imagePayload req),
       [(CREART_AI_BASE_URL ++ "/image2image", image2imagePayload req)]) := by
  unfold generate_image_to_image; rw [h]

theorem generate_image_to_image_of_err (upstream : Upstream) (raw : RawBody)
    (issues : List ValidationIssue) (h : validateImage2Image raw = .error issues) :
    generate_image_to_image upstream raw = (.validationError issues, []) := by
  unfold generate_image_to_image; rw [h]

theorem processResponse_non2xx (resp : UpstreamResponse)
    (hs : ¬ (200 ≤ resp.status ∧ resp.status < 300)) :
    processResponse resp =
      .httpError resp.status ("Error from external API: " ++ resp.text) := by
  unfold processResponse; rw [if_neg hs]

theorem processResponse_2xx_ok (resp : UpstreamResponse) (v : JValue)
    (hs : 200 ≤ resp.status ∧ resp.status < 300) (hj : resp.json = .ok v) :
    processResponse resp = .ok v := by
  unfold processResponse; rw [if_pos hs, hj]

theorem processResponse_2xx_badjson (resp : UpstreamResponse) (msg : String)
    (hs : 200 ≤ resp.status ∧ resp.status < 300) (hj : resp.json = .error msg) :
    processResponse resp =
      .httpError 500 ("An internal error occurred: " ++ msg) := by
  unfold processResponse; rw [if_pos hs, hj]

theorem callUpstream_response (upstream : Upstream) (url : String)
    (payload : Payload) (resp : UpstreamResponse)
    (hu : ∀ u p, upstream u p = .response resp) :
    callUpstream upstream url payload = processResponse resp := by
  unfold callUpstream; rw [hu]

theorem callUpstream_transport (upstream : Upstream) (url : String)
    (payload : Payload) (msg : String)
    (hu : ∀ u p, upstream u p = .transportError msg) :
    callUpstream upstream url payload =
      .httpError 500 ("An internal error occurred: " ++ msg) := by
  unfold callUpstream; rw [hu]

/-! Claim theorems. -/

/-- Claim C1: for every valid text-to-image request, the outbound form
payload has `input_image_base64` equal to the empty string and
`input_image_type` equal to "text2image", regardless of the field values
of the request. -/
theorem C1_text2image_payload_constants (r : Text2ImageRequest) :
    Payload.input_image_base64 (text2imagePayload r) = "" ∧
    Payload.input_image_type (text2imagePayload r) = "text2image" := by
  cases r
  exact ⟨rfl, rfl⟩

/-- Claim C2: for every valid image-to-image request, the outbound form
payload has `input_image_base64` exactly equal to the inbound
`input_image_base64` value (no re-encoding or transformation) and
`input_image_type` equal to "image2image". -/
theorem C2_image2image_payload_passthrough (r : Image2ImageRequest) :
    Payload.input_image_base64 (image2imagePayload r) = r.input_image_base64 ∧
    Payload.input_image_type (image2imagePayload r) = "image2image" := by
  obtain ⟨⟨p, np, ar, gs, sd⟩, img⟩ := r
  exact ⟨rfl, rfl⟩

/-- Claim C4 counterexample: a raw body whose `prompt` is the empty
string passes validation (the pydantic model declares `prompt: str =
Field(...)` with no non-emptiness constraint), contradicting the claim
that an empty-text `prompt` fails validation. -/
theorem C4_empty_prompt_counterexample :
    validateText2Image [("prompt", JValue.str "")] =
      .ok ⟨"", "", "1x1", defaultGuidanceScale, none⟩ := rfl

/-- Claim C4, amended: validation of either request kind fails with a
`ValidationError` when `prompt` is absent or not text, but an empty-text
`prompt` is accepted and passed through unchanged. -/
theorem C4_prompt_required_amended :
    (∀ raw : RawBody, raw.lookup "prompt" = none →
        isErr (validateText2Image raw) = true ∧
        ValidationIssue.missing "prompt" ∈ issuesOf (validateText2Image raw)) ∧
    (∀ (raw : RawBody) (v : JValue), raw.lookup "prompt" = some v →
        (∀ s, v ≠ JValue.str s) →
        isErr (validateText2Image raw) = true ∧
        ValidationIssue.wrongType "prompt" ∈ issuesOf (validateText2Image raw)) ∧
    (∀ raw : RawBody, raw.lookup "prompt" = none →
        isErr (validateImage2Image raw) = true) ∧
    (∀ (raw : RawBody) (v : JValue), raw.lookup "prompt" = some v →
        (∀ s, v ≠ JValue.str s) →
        isErr (validateImage2Image raw) = true) ∧
    validateText2Image [("prompt", JValue.str "")] =
      .ok ⟨"", "", "1x1", defaultGuidanceScale, none⟩ := by
  refine ⟨?_, ?_, ?_, ?_, rfl⟩
  · intro raw h
    have hp := reqStr_none raw "prompt" h
    have hv := validateText2Image_err_of_prompt raw _ hp
    rw [hv]
    exact ⟨rfl, by simp [issuesOf, text2ImageIssues, hp, errList]⟩
  · intro raw v h hv
    have hp := reqStr_wrongType raw "prompt" v h hv
    have hw := validateText2Image_err_of_prompt raw _ hp
    rw [hw]
    exact ⟨rfl, by simp [issuesOf, text2ImageIssues, hp, errList]⟩
  · intro raw h
    have hp := reqStr_none raw "prompt" h
    have hv := validateText2Image_err_of_prompt raw _ hp
    rw [validateImage2Image_err_of_text raw _ hv]
    rfl
  · intro raw v h hv
    have hp := reqStr_wrongType raw "prompt" v h hv
    have hw := validateText2Image_err_of_prompt raw _ hp
    rw [validateImage2Image_err_of_text raw _ hw]
    rfl

/-- Claim C4 witness: concrete instances of the amended theorem, for a
body with no fields at all and a body whose `prompt` is the JSON number
3. -/
theorem C4_prompt_required_amended_witness :
    (isErr (validateText2Image []) = true ∧
      ValidationIssue.missing "prompt" ∈ issuesOf (validateText2Image [])) ∧
    (isErr (validateText2Image [("prompt", JValue.int 3)]) = true ∧
      ValidationIssue.wrongType "prompt" ∈
        issuesOf (validateText2Image [("prompt", JValue.int 3)])) ∧
    isErr (validateImage2Image []) = true ∧
    isErr (validateImage2Image [("prompt", JValue.int 3)]) = true :=
  ⟨C4_prompt_required_amended.1 [] rfl,
   C4_prompt_required_amended.2.1 [("prompt", JValue.int 3)] (JValue.int 3)
     rfl (fun _ h => nomatch h),
   C4_prompt_required_amended.2.2.1 [] rfl,
   C4_prompt_required_amended.2.2.2.1 [("prompt", JValue.int 3)] (JValue.int 3)
     rfl (fun _ h => nomatch h)⟩

/-- Claim C5 counterexample: a raw image-to-image body whose
`input_image_base64` is the empty string passes validation (the pydantic
model only requires presence and type), contradicting the claim that an
empty `input_image_base64` fails validation. -/
theorem C5_empty_base64_counterexample :
    validateImage2Image
        [("prompt", JValue.str "p"), ("input_image_base64", JValue.str "")] =
      .ok ⟨⟨"p", "", "1x1", defaultGuidanceScale, none⟩, ""⟩ := rfl

/-- Claim C5, amended: validation of the image-to-image operation fails
with a `ValidationError` when `input_image_base64` is absent, but an
empty-string `input_image_base64` is accepted and passed through. -/
theorem C5_base64_required_amended :
    (∀ raw : RawBody, raw.lookup "input_image_base64" = none →
        isErr (validateImage2Image raw) = true ∧
        ValidationIssue.missing "input_image_base64" ∈
          issuesOf (validateImage2Image raw)) ∧
    validateImage2Image
        [("prompt", JValue.str "p"), ("input_image_base64", JValue.str "")] =
      .ok ⟨⟨"p", "", "1x1", defaultGuidanceScale, none⟩, ""⟩ := by
  refine ⟨?_, rfl⟩
  intro raw h
  have hb := reqStr_none raw "input_image_base64" h
  have hv := validateImage2Image_err_of_base64 raw _ hb
  rw [hv]
  exact ⟨rfl, by simp [issuesOf, image2ImageIssues, hb, errList]⟩

/-- Claim C5 witness: the amended theorem at the concrete body holding
only a prompt. -/
theorem C5_base64_required_amended_witness :
    isErr (validateImage2Image [("prompt", JValue.str "p")]) = true ∧
    ValidationIssue.missing "input_image_base64" ∈
      issuesOf (validateImage2Image [("prompt", JValue.str "p")]) :=
  C5_base64_required_amended.1 [("prompt", JValue.str "p")] rfl

/-- Claim C7: for every inbound request (either operation) that fails
validation, the handler returns the validation rejection — surfaced by
FastAPI with the 4xx client-error status 422 — and issues no outbound
call at all. -/
theorem C7_validation_failure_no_outbound (upstream : Upstream)
    (rawT rawI : RawBody) (isT isI : List ValidationIssue)
    (hT : validateText2Image rawT = .error isT)
    (hI : validateImage2Image rawI = .error isI) :
    (generate_text_to_image upstream rawT).1 = .validationError isT ∧
    (generate_text_to_image upstream rawT).2 = [] ∧
    resultStatus ((generate_text_to_image upstream rawT).1) = 422 ∧
    (generate_image_to_image upstream rawI).1 = .validationError isI ∧
    (generate_image_to_image upstream rawI).2 = [] ∧
    resultStatus ((generate_image_to_image upstream rawI).1) = 422 := by
  have eT := generate_text_to_image_of_err upstream rawT isT hT
  have eI := generate_image_to_image_of_err upstream rawI isI hI
  rw [eT, eI]
  exact ⟨rfl, rfl, rfl, rfl, rfl, rfl⟩

/-- Claim C7 witness: the empty body fails both validations, the
handlers return 422 validation rejections, and the recorded list of
outbound calls is empty, even though the supplied upstream oracle would
answer. -/
theorem C7_validation_failure_no_outbound_witness :
    (generate_text_to_image (fun _ _ => .transportError "unreachable") []).1 =
      .validationError [ValidationIssue.missing "prompt"] ∧
    (generate_text_to_image (fun _ _ => .transportError "unreachable") []).2 = [] ∧
    resultStatus ((generate_text_to_image
      (fun _ _ => .transportError "unreachable") []).1) = 422 ∧
    (generate_image_to_image (fun _ _ => .transportError "unreachable") []).1 =
      .validationError [ValidationIssue.missing "prompt",
        ValidationIssue.missing "input_image_base64"] ∧
    (generate_image_to_image (fun _ _ => .transportError "unreachable") []).2 = [] ∧
    resultStatus ((generate_image_to_image
      (fun _ _ => .transportError "unreachable") []).1) = 422 :=
  C7_validation_failure_no_outbound (fun _ _ => .transportError "unreachable")
    [] [] [ValidationIssue.missing "prompt"]
    [ValidationIssue.missing "prompt", ValidationIssue.missing "input_image_base64"]
    rfl rfl

/-- Claim C9: whenever validation of a raw text-to-image body succeeds,
every optional field that was unset in the body received its declared
default: `negative_prompt` the empty string, `aspect_ratio` "1x1",
`guidance_scale` 9.5, and `seed` absent. -/
theorem C9_optional_defaults (raw : RawBody) (req : Text2ImageRequest)
    (h : validateText2Image raw = .ok req) :
    (raw.lookup "negative_prompt" = none → req.negative_prompt = "") ∧
    (raw.lookup "aspect_ratio" = none →
       Text2ImageRequest.aspect_ratio req = "1x1") ∧
    (raw.lookup "guidance_scale" = none → req.guidance_scale = 9.5) ∧
    (raw.lookup "seed" = none → req.seed = none) := by
  obtain ⟨hp, hnp, har, hgs, hsd⟩ := validateText2Image_ok_inv raw req h
  refine ⟨?_, ?_, ?_, ?_⟩
  · intro hl
    injection (optStr_none raw "negative_prompt" "" hl).symm.trans hnp with h2
    exact h2.symm
  · intro hl
    injection (optStr_none raw "aspect_ratio" "1x1" hl).symm.trans har with h2
    exact h2.symm
  · intro hl
    injection (optFloat_none raw "guidance_scale" defaultGuidanceScale hl).symm.trans hgs with h2
    exact h2.symm
  · intro hl
    injection (optSeed_none raw "seed" hl).symm.trans hsd with h2
    exact h2.symm

/-- Claim C9 witness: the body holding only a prompt validates, and each
optional field of the resulting request is its declared default. -/
theorem C9_optional_defaults_witness :
    validateText2Image [("prompt", JValue.str "hello")] =
      .ok ⟨"hello", "", "1x1", defaultGuidanceScale, none⟩ ∧
    Text2ImageRequest.negative_prompt
      ⟨"hello", "", "1x1", defaultGuidanceScale, none⟩ = "" ∧
    Text2ImageRequest.aspect_ratio
      ⟨"hello", "", "1x1", defaultGuidanceScale, none⟩ = "1x1" ∧
    Text2ImageRequest.guidance_scale
      ⟨"hello", "", "1x1", defaultGuidanceScale, none⟩ = 9.5 ∧
    Text2ImageRequest.seed
      ⟨"hello", "", "1x1", defaultGuidanceScale, none⟩ = none :=
  have t := C9_optional_defaults [("prompt", JValue.str "hello")]
    ⟨"hello", "", "1x1", defaultGuidanceScale, none⟩ rfl
  ⟨rfl, t.1 rfl, t.2.1 rfl, t.2.2.1 rfl, t.2.2.2 rfl⟩

/-- Claim C3: for every inbound request (either operation) that
validates, when the upstream answers with a non-2xx HTTP status the
handler fails with an error whose status code equals the upstream
status code and whose detail contains the upstream response body
text. -/
theorem C3_upstream_error_propagated (upstream : Upstream)
    (rawT rawI : RawBody) (reqT : Text2ImageRequest)
    (reqI : Image2ImageRequest) (resp : UpstreamResponse)
    (hu : ∀ u p, upstream u p = .response resp)
    (hs : ¬ (200 ≤ resp.status ∧ resp.status < 300))
    (hT : validateText2Image rawT = .ok reqT)
    (hI : validateImage2Image rawI = .ok reqI) :
    (generate_text_to_image upstream rawT).1 =
      .httpError resp.status ("Error from external API: " ++ resp.text) ∧
    (generate_image_to_image upstream rawI).1 =
      .httpError resp.status ("Error from external API: " ++ resp.text) ∧
    resultStatus ((generate_text_to_image upstream rawT).1) = resp.status ∧
    resultStatus ((generate_image_to_image upstream rawI).1) = resp.status ∧
    strContains ("Error from external API: " ++ resp.text) resp.text := by
  have pr := processResponse_non2xx resp hs
  have eT := generate_text_to_image_of_ok upstream rawT reqT hT
  have eI := generate_image_to_image_of_ok upstream rawI reqI hI
  have cT := callUpstream_response upstream (CREART_AI_BASE_URL ++ "/text2image")
    (text2imagePayload reqT) resp hu
  have cI := callUpstream_response upstream (CREART_AI_BASE_URL ++ "/image2image")
    (image2imagePayload reqI) resp hu
  rw [eT, eI]
  exact ⟨cT.trans pr, cI.trans pr, congrArg resultStatus (cT.trans pr),
    congrArg resultStatus (cI.trans pr),
    ⟨"Error from external API: ", "", by simp⟩⟩

/-- Claim C3 witness: for a 422 upstream response with body "bad prompt"
both handlers return status 422 with a detail containing "bad prompt". -/
theorem C3_upstream_error_propagated_witness :
    (generate_text_to_image
      (fun _ _ => .response ⟨422, "bad prompt", .error "nj"⟩)
      [("prompt", JValue.str "cat")]).1 =
      .httpError 422 ("Error from external API: " ++ "bad prompt") ∧
    (generate_image_to_image
      (fun _ _ => .response ⟨422, "bad prompt", .error "nj"⟩)
      [("prompt", JValue.str "cat"), ("input_image_base64", JValue.str "img64")]).1 =
      .httpError 422 ("Error from external API: " ++ "bad prompt") ∧
    resultStatus ((generate_text_to_image
      (fun _ _ => .response ⟨422, "bad prompt", .error "nj"⟩)
      [("prompt", JValue.str "cat")]).1) = 422 ∧
    resultStatus ((generate_image_to_image
      (fun _ _ => .response ⟨422, "bad prompt", .error "nj"⟩)
      [("prompt", JValue.str "cat"), ("input_image_base64", JValue.str "img64")]).1) = 422 ∧
    strContains ("Error from external API: " ++ "bad prompt") "bad prompt" :=
  C3_upstream_error_propagated
    (fun _ _ => .response ⟨422, "bad prompt", .error "nj"⟩)
    [("prompt", JValue.str "cat")]
    [("prompt", JValue.str "cat"), ("input_image_base64", JValue.str "img64")]
    ⟨"cat", "", "1x1", defaultGuidanceScale, none⟩
    ⟨⟨"cat", "", "1x1", defaultGuidanceScale, none⟩, "img64"⟩
    ⟨422, "bad prompt", .error "nj"⟩
    (fun _ _ => rfl) (by decide) rfl rfl

/-- Claim C6: for every inbound request (either operation) that
validates, when the upstream answers with a 2xx status and a body whose
JSON deserialization is the value v, the handler returns status 200
with exactly v, unmodified. -/
theorem C6_success_verbatim (upstream : Upstream)
    (rawT rawI : RawBody) (reqT : Text2ImageRequest)
    (reqI : Image2ImageRequest) (resp : UpstreamResponse) (v : JValue)
    (hu : ∀ u p, upstream u p = .response resp)
    (hs : 200 ≤ resp.status ∧ resp.status < 300)
    (hj : resp.json = .ok v)
    (hT : validateText2Image rawT = .ok reqT)
    (hI : validateImage2Image rawI = .ok reqI) :
    (generate_text_to_image upstream rawT).1 = .ok v ∧
    (generate_image_to_image upstream rawI).1 = .ok v ∧
    resultStatus ((generate_text_to_image upstream rawT).1) = 200 ∧
    resultStatus ((generate_image_to_image upstream rawI).1) = 200 := by
  have pr := processResponse_2xx_ok resp v hs hj
  have eT := generate_text_to_image_of_ok upstream rawT reqT hT
  have eI := generate_image_to_image_of_ok upstream rawI reqI hI
  have cT := callUpstream_response upstream (CREART_AI_BASE_URL ++ "/text2image")
    (text2imagePayload reqT) resp hu
  have cI := callUpstream_response upstream (CREART_AI_BASE_URL ++ "/image2image")
    (image2imagePayload reqI) resp hu
  rw [eT, eI]
  exact ⟨cT.trans pr, cI.trans pr, congrArg resultStatus (cT.trans pr),
    congrArg resultStatus (cI.trans pr)⟩

/-- Claim C6 witness: for an upstream 200 response whose body text is
the JSON object with field "id" equal to "abc", both handlers return
status 200 with exactly that object. -/
theorem C6_success_verbatim_witness :
    (generate_text_to_image
      (fun _ _ => .response ⟨200, "\x7b\"id\":\"abc\"\x7d",
        .ok (JValue.obj [("id", JValue.str "abc")])⟩)
      [("prompt", JValue.str "cat")]).1 =
      .ok (JValue.obj [("id", JValue.str "abc")]) ∧
    (generate_image_to_image
      (fun _ _ => .response ⟨200, "\x7b\"id\":\"abc\"\x7d",
        .ok (JValue.obj [("id", JValue.str "abc")])⟩)
      [("prompt", JValue.str "cat"), ("input_image_base64", JValue.str "img64")]).1 =
      .ok (JValue.obj [("id", JValue.str "abc")]) ∧
    resultStatus ((generate_text_to_image
      (fun _ _ => .response ⟨200, "\x7b\"id\":\"abc\"\x7d",
        .ok (JValue.obj [("id", JValue.str "abc")])⟩)
      [("prompt", JValue.str "cat")]).1) = 200 ∧
    resultStatus ((generate_image_to_image
      (fun _ _ => .response ⟨200, "\x7b\"id\":\"abc\"\x7d",
        .ok (JValue.obj [("id", JValue.str "abc")])⟩)
      [("prompt", JValue.str "cat"), ("input_image_base64", JValue.str "img64")]).1) = 200 :=
  C6_success_verbatim
    (fun _ _ => .response ⟨200, "\x7b\"id\":\"abc\"\x7d",
      .ok (JValue.obj [("id", JValue.str "abc")])⟩)
    [("prompt", JValue.str "cat")]
    [("prompt", JValue.str "cat"), ("input_image_base64", JValue.str "img64")]
    ⟨"cat", "", "1x1", defaultGuidanceScale, none⟩
    ⟨⟨"cat", "", "1x1", defaultGuidanceScale, none⟩, "img64"⟩
    ⟨200, "\x7b\"id\":\"abc\"\x7d", .ok (JValue.obj [("id", JValue.str "abc")])⟩
    (JValue.obj [("id", JValue.str "abc")])
    (fun _ _ => rfl) (by decide) rfl rfl rfl

/-- Claim C8: for every inbound request (either operation) that
validates, when the outbound call fails at the transport level with any
message, the handler fails with the fixed generic status 500 and a
diagnostic detail wrapping that message. -/
theorem C8_transport_failure_500 (upstream : Upstream)
    (rawT rawI : RawBody) (reqT : Text2ImageRequest)
    (reqI : Image2ImageRequest) (msg : String)
    (hu : ∀ u p, upstream u p = .transportError msg)
    (hT : validateText2Image rawT = .ok reqT)
    (hI : validateImage2Image rawI = .ok reqI) :
    (generate_text_to_image upstream rawT).1 =
      .httpError 500 ("An internal error occurred: " ++ msg) ∧
    (generate_image_to_image upstream rawI).1 =
      .httpError 500 ("An internal error occurred: " ++ msg) ∧
    resultStatus ((generate_text_to_image upstream rawT).1) = 500 ∧
    resultStatus ((generate_image_to_image upstream rawI).1) = 500 := by
  have eT := generate_text_to_image_of_ok upstream rawT reqT hT
  have eI := generate_image_to_image_of_ok upstream rawI reqI hI
  have cT := callUpstream_transport upstream (CREART_AI_BASE_URL ++ "/text2image")
    (text2imagePayload reqT) msg hu
  have cI := callUpstream_transport upstream (CREART_AI_BASE_URL ++ "/image2image")
    (image2imagePayload reqI) msg hu
  rw [eT, eI]
  exact ⟨cT, cI, congrArg resultStatus cT, congrArg resultStatus cI⟩

/-- Claim C8 witness: a simulated connection timeout on either
operation yields a 500 with a diagnostic detail. -/
theorem C8_transport_failure_500_witness :
    (generate_text_to_image (fun _ _ => .transportError "Connect timeout")
      [("prompt", JValue.str "cat")]).1 =
      .httpError 500 ("An internal error occurred: " ++ "Connect timeout") ∧
    (generate_image_to_image (fun _ _ => .transportError "Connect timeout")
      [("prompt", JValue.str "cat"), ("input_image_base64", JValue.str "img64")]).1 =
      .httpError 500 ("An internal error occurred: " ++ "Connect timeout") ∧
    resultStatus ((generate_text_to_image
      (fun _ _ => .transportError "Connect timeout")
      [("prompt", JValue.str "cat")]).1) = 500 ∧
    resultStatus ((generate_image_to_image
      (fun _ _ => .transportError "Connect timeout")
      [("prompt", JValue.str "cat"), ("input_image_base64", JValue.str "img64")]).1) = 500 :=
  C8_transport_failure_500
    (fun _ _ => .transportError "Connect timeout")
    [("prompt", JValue.str "cat")]
    [("prompt", JValue.str "cat"), ("input_image_base64", JValue.str "img64")]
    ⟨"cat", "", "1x1", defaultGuidanceScale, none⟩
    ⟨⟨"cat", "", "1x1", defaultGuidanceScale, none⟩, "img64"⟩
    "Connect timeout" (fun _ _ => rfl) rfl rfl

/-- Claim C10: for every inbound request (either operation) that
validates, when the upstream answers 2xx but with a body whose JSON
deserialization raises, the handler does not relay the body: the
failure is caught by the generic handler and surfaced as a 500 internal
error. -/
theorem C10_bad_json_500 (upstream : Upstream)
    (rawT rawI : RawBody) (reqT : Text2ImageRequest)
    (reqI : Image2ImageRequest) (resp : UpstreamResponse) (msg : String)
    (hu : ∀ u p, upstream u p = .response resp)
    (hs : 200 ≤ resp.status ∧ resp.status < 300)
    (hj : resp.json = .error msg)
    (hT : validateText2Image rawT = .ok reqT)
    (hI : validateImage2Image rawI = .ok reqI) :
    (generate_text_to_image upstream rawT).1 =
      .httpError 500 ("An internal error occurred: " ++ msg) ∧
    (generate_image_to_image upstream rawI).1 =
      .httpError 500 ("An internal error occurred: " ++ msg) ∧
    resultStatus ((generate_text_to_image upstream rawT).1) = 500 ∧
    resultStatus ((generate_image_to_image upstream rawI).1) = 500 := by
  have pr := processResponse_2xx_badjson resp msg hs hj
  have eT := generate_text_to_image_of_ok upstream rawT reqT hT
  have eI := generate_image_to_image_of_ok upstream rawI reqI hI
  have cT := callUpstream_response upstream (CREART_AI_BASE_URL ++ "/text2image")
    (text2imagePayload reqT) resp hu
  have cI := callUpstream_response upstream (CREART_AI_BASE_URL ++ "/image2image")
    (image2imagePayload reqI) resp hu
  rw [eT, eI]
  exact ⟨cT.trans pr, cI.trans pr, congrArg resultStatus (cT.trans pr),
    congrArg resultStatus (cI.trans pr)⟩

/-- Claim C10 witness: an upstream 200 response whose body is not valid
JSON is surfaced by both handlers as a 500 internal error. -/
theorem C10_bad_json_500_witness :
    (generate_text_to_image
      (fun _ _ => .response ⟨200, "not json", .error "Expecting value"⟩)
      [("prompt", JValue.str "cat")]).1 =
      .httpError 500 ("An internal error occurred: " ++ "Expecting value") ∧
    (generate_image_to_image
      (fun _ _ => .response ⟨200, "not json", .error "Expecting value"⟩)
      [("prompt", JValue.str "cat"), ("input_image_base64", JValue.str "img64")]).1 =
      .httpError 500 ("An internal error occurred: " ++ "Expecting value") ∧
    resultStatus ((generate_text_to_image
      (fun _ _ => .response ⟨200, "not json", .error "Expecting value"⟩)
      [("prompt", JValue.str "cat")]).1) = 500 ∧
    resultStatus ((generate_image_to_image
      (fun _ _ => .response ⟨200, "not json", .error "Expecting value"⟩)
      [("prompt", JValue.str "cat"), ("input_image_base64", JValue.str "img64")]).1) = 500 :=
  C10_bad_json_500
    (fun _ _ => .response ⟨200, "not json", .error "Expecting value"⟩)
    [("prompt", JValue.str "cat")]
    [("prompt", JValue.str "cat"), ("input_image_base64", JValue.str "img64")]
    ⟨"cat", "", "1x1", defaultGuidanceScale, none⟩
    ⟨⟨"cat", "", "1x1", defaultGuidanceScale, none⟩, "img64"⟩
    ⟨200, "not json", .error "Expecting value"⟩ "Expecting value"
    (fun _ _ => rfl) (by decide) rfl rfl rfl

end NexusAPI
